import Mathlib

/-!
Verification development for a two-sided 6502-subset codec/execution engine:
an assembler (`src/assembler/assembler.js`) turning textual assembly into a
flat byte stream, and an emulator (`src/emulator/emulator.js`) interpreting
that byte stream against a register file and a flat `Uint8Array(0x10000)`
memory.  Every definition below is a shallow embedding of the corresponding
JavaScript function; registers are modelled as unbounded `Int` (JS numbers
are not masked by the source), memory cells as `Nat` (the `Uint8Array`
stores bytes), and JS 32-bit bitwise operators via explicit two's-complement
conversion.
-/

/-- JS `ToUint32`: the operand of a bitwise operator reduced to its 32-bit
two's-complement bit pattern, read as an unsigned number. -/
def toUint32 (v : Int) : Nat := (v % 4294967296).toNat

/-- JS `ToInt32`: reinterpret a 32-bit bit pattern as a signed number. -/
def toInt32 (v : Int) : Int :=
  let u := toUint32 v
  if u < 2147483648 then (u : Int) else (u : Int) - 4294967296

/-- JS `a & b` on numbers (32-bit signed bitwise and). -/
def jsAnd (a b : Int) : Int :=
  toInt32 (Int.ofNat (Nat.land (toUint32 a) (toUint32 b)))

/-- JS `a | b` on numbers (32-bit signed bitwise or). -/
def jsOr (a b : Int) : Int :=
  toInt32 (Int.ofNat (Nat.lor (toUint32 a) (toUint32 b)))

/-- JS `a ^ b` on numbers (32-bit signed bitwise xor). -/
def jsXor (a b : Int) : Int :=
  toInt32 (Int.ofNat (Nat.xor (toUint32 a) (toUint32 b)))

/-- JS `a << b` on numbers: shift the 32-bit pattern left by `b mod 32`. -/
def jsShl (a b : Int) : Int :=
  toInt32 (Int.ofNat ((toUint32 a <<< (toUint32 b % 32)) % 4294967296))

/-- JS `a >> b` on numbers: sign-propagating right shift, i.e. floor
division of the 32-bit signed value by `2 ^ (b mod 32)`. -/
def jsShr (a b : Int) : Int :=
  Int.fdiv (toInt32 a) (2 ^ (toUint32 b % 32))

namespace Emulator

/-- `START_PROGRAM` (emulator.js line 4). -/
def START_PROGRAM : Int := 0x200

/-- The contents of the `Uint8Array(0x10000)`: a map from index to cell
value.  Only indices `< 0x10000` correspond to real cells; `memWrite` never
touches other indices. -/
abbrev Mem := Nat → Nat

/-- Reading `memory[i]`.  A `Uint8Array` read at an in-range index returns
the stored byte; an out-of-range read yields JS `undefined`, which no claim
exercises — it is modelled as 0 here. -/
def memRead (m : Mem) (i : Int) : Nat :=
  if 0 ≤ i ∧ i < 65536 then m i.toNat else 0

/-- Writing `memory[i] = v`.  `Uint8Array` converts the value with
`ToUint8` (reduce mod 2^8, negatives wrapping into 0..255, which is exactly
`Int.emod`) and ignores out-of-range indices. -/
def memWrite (m : Mem) (i : Int) (v : Int) : Mem :=
  if 0 ≤ i ∧ i < 65536 then
    fun j => if j = i.toNat then (v % 256).toNat else m j
  else m

/-- The CPU state created by `makeState` (emulator.js lines 258-268):
register file plus memory.  Registers are plain JS numbers, hence `Int`. -/
structure State where
  memory : Mem
  programCounter : Int
  statusRegister : Int
  stackPointer : Int
  X : Int
  Y : Int
  A : Int

/-- `makeState` (emulator.js lines 258-268). -/
def makeState : State :=
  { memory := fun _ => 0
    programCounter := START_PROGRAM
    statusRegister := 0
    stackPointer := 0xFF
    X := 0
    Y := 0
    A := 0 }

/-- `memory[i]` as the JS number it evaluates to inside the emulator. -/
def rd (s : State) (i : Int) : Int := Int.ofNat (memRead s.memory i)

/-- The keys of the `addressModes` object (emulator.js lines 6-92). -/
inductive AddrMode where
  | absolute | absoluteX | absoluteY
  | zeroPage | zeroPageX | zeroPageY
  | immediate | relative | indirect
  | indexedIndirect | indirectIndexed
deriving DecidableEq, Repr

/-- `addressModes[mode].getAddress` (emulator.js lines 6-92), transcribed
formula by formula.  Note that `absoluteX`/`absoluteY` index the operand
fetch position by `X`/`Y`, and `indirect` reads a single byte at the
pointer. -/
def getAddress (mode : AddrMode) (s : State) : Int :=
  match mode with
  | .absolute =>
      jsOr (rd s s.programCounter) (jsShl (rd s (s.programCounter + 1)) 8)
  | .absoluteX =>
      jsOr (rd s (s.programCounter + s.X))
        (jsShl (rd s (s.programCounter + s.X + 1)) 8)
  | .absoluteY =>
      jsOr (rd s (s.programCounter + s.Y))
        (jsShl (rd s (s.programCounter + s.Y + 1)) 8)
  | .zeroPage => rd s s.programCounter
  | .zeroPageX => jsAnd (rd s s.programCounter + s.X) 0xFF
  | .zeroPageY => jsAnd (rd s s.programCounter + s.Y) 0xFF
  | .immediate => s.programCounter
  | .relative => s.programCounter + rd s s.programCounter
  | .indirect =>
      let addressAddress :=
        jsOr (rd s s.programCounter) (jsShl (rd s (s.programCounter + 1)) 8)
      rd s addressAddress
  | .indexedIndirect =>
      let address :=
        jsOr (rd s (s.programCounter + s.X))
          (jsShl (rd s (s.programCounter + s.X + 1)) 8)
      jsOr (rd s address) (jsShl (rd s (address + 1)) 8)
  | .indirectIndexed =>
      let address :=
        jsOr (rd s s.programCounter) (jsShl (rd s (s.programCounter + 1)) 8)
      jsOr (rd s (address + s.Y)) (jsShl (rd s (address + s.Y + 1)) 8)

/-- `addressModes[mode].bytes` (emulator.js lines 6-92). -/
def bytes (mode : AddrMode) : Nat :=
  match mode with
  | .absolute => 2 | .absoluteX => 2 | .absoluteY => 2
  | .zeroPage => 1 | .zeroPageX => 1 | .zeroPageY => 1
  | .immediate => 1 | .relative => 1 | .indirect => 2
  | .indexedIndirect => 1 | .indirectIndexed => 1

/-- `push` (emulator.js lines 94-97): write to `stackPointer + 0x0100`,
then decrement the stack pointer. -/
def push (s : State) (value : Int) : State :=
  { s with
    memory := memWrite s.memory (s.stackPointer + 0x0100) value
    stackPointer := s.stackPointer - 1 }

/-- `pop` (emulator.js lines 99-102): increment the stack pointer, then
read `memory[stackPointer + 0x0100]`; returns the updated state with the
value read. -/
def pop (s : State) : State × Nat :=
  ({ s with stackPointer := s.stackPointer + 1 },
    memRead s.memory (s.stackPointer + 1 + 0x0100))

/-- The members of `instructionTypes` (emulator.js lines 104-256) that take
`(state, address)`. -/
inductive IType2 where
  | ADC | AND | ASL | DEC | EOR | INC | LDA | LDX | LDY
  | LSR | ORA | ROL | ROR | SBC | STA | STX | STY
deriving DecidableEq, Repr

/-- The members of `instructionTypes` (emulator.js lines 104-256) that take
`(state)` only (register/stack/accumulator-variant operations). -/
inductive IType0 where
  | ASL_A | DEX | DEY | INX | INY | LSR_A
  | PHA | PHP | PLA | PLP | ROL_A | ROR_A
  | TAX | TAY | TSX | TXA | TXS | TYA
deriving DecidableEq, Repr

/-- The bodies of the two-argument `instructionTypes` members
(emulator.js lines 104-256), transcribed one by one.  Note `ASL` with an
address stores the shifted memory byte into `A` (line 114), and `DEC`/`INC`
mutate the `Uint8Array` cell (so the stored byte is reduced mod 256 by
`memWrite`). -/
def runType2 (t : IType2) (s : State) (address : Int) : State :=
  match t with
  | .ADC => { s with A := s.A + rd s address }
  | .AND => { s with A := jsAnd s.A (rd s address) }
  | .ASL => { s with A := jsShl (rd s address) 1 }
  | .DEC => { s with memory := memWrite s.memory address (rd s address - 1) }
  | .EOR => { s with A := jsXor s.A (rd s address) }
  | .INC => { s with memory := memWrite s.memory address (rd s address + 1) }
  | .LDA => { s with A := rd s address }
  | .LDX => { s with X := rd s address }
  | .LDY => { s with Y := rd s address }
  | .LSR => { s with memory := memWrite s.memory address (jsShr (rd s address) 1) }
  | .ORA => { s with A := jsOr s.A (rd s address) }
  | .ROL =>
      let oldValue := rd s address
      let newValue := jsOr (jsShl oldValue 1) (jsShr (jsAnd oldValue 0b10000000) 7)
      { s with memory := memWrite s.memory address newValue }
  | .ROR =>
      let oldValue := rd s address
      let newValue := jsOr (jsShr oldValue 1) (jsShl (jsAnd oldValue 0b1) 7)
      { s with memory := memWrite s.memory address newValue }
  | .SBC => { s with A := s.A - rd s address }
  | .STA => { s with memory := memWrite s.memory address s.A }
  | .STX => { s with memory := memWrite s.memory address s.X }
  | .STY => { s with memory := memWrite s.memory address s.Y }

/-- The bodies of the one-argument `instructionTypes` members
(emulator.js lines 104-256).  `DEX`/`DEY` wrap 0 to 255 explicitly;
`INX`/`INY` do not mask. -/
def runType0 (t : IType0) (s : State) : State :=
  match t with
  | .ASL_A => { s with A := jsShl s.A 1 }
  | .DEX => if s.X = 0 then { s with X := 255 } else { s with X := s.X - 1 }
  | .DEY => if s.Y = 0 then { s with Y := 255 } else { s with Y := s.Y - 1 }
  | .INX => { s with X := s.X + 1 }
  | .INY => { s with Y := s.Y + 1 }
  | .LSR_A => { s with A := jsShr s.A 1 }
  | .PHA => push s s.A
  | .PHP => push s s.statusRegister
  | .PLA => let r := pop s; { r.1 with A := Int.ofNat r.2 }
  | .PLP => let r := pop s; { r.1 with statusRegister := Int.ofNat r.2 }
  | .ROL_A => { s with A := jsOr (jsShl s.A 1) (jsShr (jsAnd s.A 0b10000000) 7) }
  | .ROR_A => { s with A := jsOr (jsShr s.A 1) (jsShl (jsAnd s.A 0b1) 7) }
  | .TAX => { s with X := s.A }
  | .TAY => { s with Y := s.A }
  | .TSX => { s with X := s.stackPointer }
  | .TXA => { s with A := s.X }
  | .TXS => { s with stackPointer := s.X }
  | .TYA => { s with A := s.Y }

/-- A populated slot of the `instructions` table: `registerInstruction`
(emulator.js lines 273-280) pairs an `instructionTypes` member with an
optional addressing mode. -/
inductive Entry where
  | addressed (t : IType2) (mode : AddrMode)
  | plain (t : IType0)
deriving DecidableEq, Repr

/-- `registerInstructions(instructionTypes.ADC, [...])` from emulator.js. -/
def regADC : List (Nat × Entry) :=
  [ (0x61, .addressed .ADC .indexedIndirect),
    (0x65, .addressed .ADC .zeroPage),
    (0x69, .addressed .ADC .immediate),
    (0x6D, .addressed .ADC .absolute),
    (0x71, .addressed .ADC .indirectIndexed),
    (0x75, .addressed .ADC .zeroPageX),
    (0x79, .addressed .ADC .absoluteY),
    (0x7D, .addressed .ADC .absoluteX) ]

/-- `registerInstructions(instructionTypes.AND, [...])` from emulator.js. -/
def regAND : List (Nat × Entry) :=
  [ (0x21, .addressed .AND .indexedIndirect),
    (0x25, .addressed .AND .zeroPage),
    (0x29, .addressed .AND .immediate),
    (0x2D, .addressed .AND .absolute),
    (0x31, .addressed .AND .indirectIndexed),
    (0x35, .addressed .AND .zeroPageX),
    (0x39, .addressed .AND .absoluteY),
    (0x3D, .addressed .AND .absoluteX) ]

/-- `registerInstructions(instructionTypes.ASL, [...])` from emulator.js. -/
def regASL : List (Nat × Entry) :=
  [ (0x06, .addressed .ASL .zeroPage),
    (0x0E, .addressed .ASL .absolute),
    (0x16, .addressed .ASL .zeroPageX),
    (0x1E, .addressed .ASL .absoluteX) ]

/-- `registerInstruction(instructionTypes.ASL_A, ...)` from emulator.js. -/
def regASL_A : List (Nat × Entry) := [ (0x0A, .plain .ASL_A) ]

/-- `registerInstructions(instructionTypes.DEC, [...])` from emulator.js. -/
def regDEC : List (Nat × Entry) :=
  [ (0xC6, .addressed .DEC .zeroPage),
    (0xD6, .addressed .DEC .zeroPageX),
    (0xCE, .addressed .DEC .absolute),
    (0xDE, .addressed .DEC .absoluteX) ]

/-- `registerInstruction(instructionTypes.DEX, ...)` from emulator.js. -/
def regDEX : List (Nat × Entry) := [ (0xCA, .plain .DEX) ]

/-- `registerInstruction(instructionTypes.DEY, ...)` from emulator.js. -/
def regDEY : List (Nat × Entry) := [ (0x88, .plain .DEY) ]

/-- `registerInstructions(instructionTypes.EOR, [...])` from emulator.js. -/
def regEOR : List (Nat × Entry) :=
  [ (0x49, .addressed .EOR .immediate),
    (0x45, .addressed .EOR .zeroPage),
    (0x55, .addressed .EOR .zeroPageX),
    (0x4D, .addressed .EOR .absolute),
    (0x5D, .addressed .EOR .absoluteY),
    (0x59, .addressed .EOR .absoluteX),
    (0x41, .addressed .EOR .indexedIndirect),
    (0x51, .addressed .EOR .indirectIndexed) ]

/-- `registerInstructions(instructionTypes.INC, [...])` from emulator.js. -/
def regINC : List (Nat × Entry) :=
  [ (0xE6, .addressed .INC .zeroPage),
    (0xF6, .addressed .INC .zeroPageX),
    (0xEE, .addressed .INC .absolute),
    (0xFE, .addressed .INC .absoluteX) ]

/-- `registerInstruction(instructionTypes.INX, ...)` from emulator.js. -/
def regINX : List (Nat × Entry) := [ (0xE8, .plain .INX) ]

/-- `registerInstruction(instructionTypes.INY, ...)` from emulator.js. -/
def regINY : List (Nat × Entry) := [ (0xC8, .plain .INY) ]

/-- `registerInstructions(instructionTypes.LDA, [...])` from emulator.js. -/
def regLDA : List (Nat × Entry) :=
  [ (0xA9, .addressed .LDA .immediate),
    (0xA5, .addressed .LDA .zeroPage),
    (0xB5, .addressed .LDA .zeroPageX),
    (0xAD, .addressed .LDA .absolute),
    (0xBD, .addressed .LDA .absoluteY),
    (0xB9, .addressed .LDA .absoluteX),
    (0xA1, .addressed .LDA .indexedIndirect),
    (0xB1, .addressed .LDA .indirectIndexed) ]

/-- `registerInstructions(instructionTypes.LDX, [...])` from emulator.js. -/
def regLDX : List (Nat × Entry) :=
  [ (0xA2, .addressed .LDX .immediate),
    (0xA6, .addressed .LDX .zeroPage),
    (0xB6, .addressed .LDX .zeroPageY),
    (0xAE, .addressed .LDX .absolute),
    (0xBE, .addressed .LDX .absoluteY) ]

/-- `registerInstructions(instructionTypes.LDY, [...])` from emulator.js. -/
def regLDY : List (Nat × Entry) :=
  [ (0xA0, .addressed .LDY .immediate),
    (0xA4, .addressed .LDY .zeroPage),
    (0xB4, .addressed .LDY .zeroPageX),
    (0xAC, .addressed .LDY .absolute),
    (0xBC, .addressed .LDY .absoluteX) ]

/-- `registerInstructions(instructionTypes.LSR, [...])` from emulator.js. -/
def regLSR : List (Nat × Entry) :=
  [ (0x46, .addressed .LSR .zeroPage),
    (0x56, .addressed .LSR .zeroPageX),
    (0x4E, .addressed .LSR .absolute),
    (0x5E, .addressed .LSR .absoluteX) ]

/-- `registerInstruction(instructionTypes.LSR_A, ...)` from emulator.js. -/
def regLSR_A : List (Nat × Entry) := [ (0x4A, .plain .LSR_A) ]

/-- `registerInstructions(instructionTypes.ORA, [...])` from emulator.js. -/
def regORA : List (Nat × Entry) :=
  [ (0x09, .addressed .ORA .immediate),
    (0x05, .addressed .ORA .zeroPage),
    (0x15, .addressed .ORA .zeroPageX),
    (0x0D, .addressed .ORA .absolute),
    (0x1D, .addressed .ORA .absoluteY),
    (0x19, .addressed .ORA .absoluteX),
    (0x01, .addressed .ORA .indexedIndirect),
    (0x11, .addressed .ORA .indirectIndexed) ]

/-- `registerInstruction(instructionTypes.PHA, ...)` from emulator.js. -/
def regPHA : List (Nat × Entry) := [ (0x48, .plain .PHA) ]

/-- `registerInstruction(instructionTypes.PHP, ...)` from emulator.js. -/
def regPHP : List (Nat × Entry) := [ (0x08, .plain .PHP) ]

/-- `registerInstruction(instructionTypes.PLA, ...)` from emulator.js. -/
def regPLA : List (Nat × Entry) := [ (0x68, .plain .PLA) ]

/-- `registerInstruction(instructionTypes.PLP, ...)` from emulator.js. -/
def regPLP : List (Nat × Entry) := [ (0x28, .plain .PLP) ]

/-- `registerInstructions(instructionTypes.ROL, [...])` from emulator.js. -/
def regROL : List (Nat × Entry) :=
  [ (0x26, .addressed .ROL .zeroPage),
    (0x36, .addressed .ROL .zeroPageX),
    (0x2E, .addressed .ROL .absolute),
    (0x3E, .addressed .ROL .absoluteX) ]

/-- `registerInstruction(instructionTypes.ROL_A, ...)` from emulator.js. -/
def regROL_A : List (Nat × Entry) := [ (0x2A, .plain .ROL_A) ]

/-- `registerInstructions(instructionTypes.ROR, [...])` from emulator.js. -/
def regROR : List (Nat × Entry) :=
  [ (0x66, .addressed .ROR .zeroPage),
    (0x76, .addressed .ROR .zeroPageX),
    (0x6E, .addressed .ROR .absolute),
    (0x7E, .addressed .ROR .absoluteX) ]

/-- `registerInstruction(instructionTypes.ROR_A, ...)` from emulator.js. -/
def regROR_A : List (Nat × Entry) := [ (0x6A, .plain .ROR_A) ]

/-- `registerInstructions(instructionTypes.SBC, [...])` from emulator.js. -/
def regSBC : List (Nat × Entry) :=
  [ (0xE9, .addressed .SBC .immediate),
    (0xE5, .addressed .SBC .zeroPage),
    (0xF5, .addressed .SBC .zeroPageX),
    (0xED, .addressed .SBC .absolute),
    (0xFD, .addressed .SBC .absoluteY),
    (0xF9, .addressed .SBC .absoluteX),
    (0xE1, .addressed .SBC .indexedIndirect),
    (0xF1, .addressed .SBC .indirectIndexed) ]

/-- `registerInstructions(instructionTypes.STA, [...])` from emulator.js. -/
def regSTA : List (Nat × Entry) :=
  [ (0x85, .addressed .STA .zeroPage),
    (0x95, .addressed .STA .zeroPageX),
    (0x8D, .addressed .STA .absolute),
    (0x9D, .addressed .STA .absoluteY),
    (0x99, .addressed .STA .absoluteX),
    (0x81, .addressed .STA .indexedIndirect),
    (0x91, .addressed .STA .indirectIndexed) ]

/-- `registerInstructions(instructionTypes.STX, [...])` from emulator.js. -/
def regSTX : List (Nat × Entry) :=
  [ (0x86, .addressed .STX .zeroPage),
    (0x96, .addressed .STX .zeroPageY),
    (0x8E, .addressed .STX .absolute) ]

/-- `registerInstructions(instructionTypes.STY, [...])` from emulator.js. -/
def regSTY : List (Nat × Entry) :=
  [ (0x84, .addressed .STY .zeroPage),
    (0x94, .addressed .STY .zeroPageX),
    (0x8C, .addressed .STY .absolute) ]

/-- `registerInstruction(instructionTypes.TAX, ...)` from emulator.js. -/
def regTAX : List (Nat × Entry) := [ (0xAA, .plain .TAX) ]

/-- `registerInstruction(instructionTypes.TAY, ...)` from emulator.js. -/
def regTAY : List (Nat × Entry) := [ (0xA8, .plain .TAY) ]

/-- `registerInstruction(instructionTypes.TSX, ...)` from emulator.js. -/
def regTSX : List (Nat × Entry) := [ (0xBA, .plain .TSX) ]

/-- `registerInstruction(instructionTypes.TXA, ...)` from emulator.js. -/
def regTXA : List (Nat × Entry) := [ (0x8A, .plain .TXA) ]

/-- `registerInstruction(instructionTypes.TXS, ...)` from emulator.js. -/
def regTXS : List (Nat × Entry) := [ (0x9A, .plain .TXS) ]

/-- `registerInstruction(instructionTypes.TYA, ...)` from emulator.js. -/
def regTYA : List (Nat × Entry) := [ (0x98, .plain .TYA) ]

/-- The full sequence of registrations made by `makeInstructions`
(emulator.js lines 288-468), in source order.  The opcode/mode pairs are
transcribed verbatim — in particular `LDA` pairs `0xBD` with `absoluteY`
and `0xB9` with `absoluteX` (lines 357-358), and `EOR`/`ORA`/`SBC`/`STA`
likewise swap their absoluteX/absoluteY opcodes. -/
def registrations : List (Nat × Entry) :=
  regADC ++
  regAND ++
  regASL ++
  regASL_A ++
  regDEC ++
  regDEX ++
  regDEY ++
  regEOR ++
  regINC ++
  regINX ++
  regINY ++
  regLDA ++
  regLDX ++
  regLDY ++
  regLSR ++
  regLSR_A ++
  regORA ++
  regPHA ++
  regPHP ++
  regPLA ++
  regPLP ++
  regROL ++
  regROL_A ++
  regROR ++
  regROR_A ++
  regSBC ++
  regSTA ++
  regSTX ++
  regSTY ++
  regTAX ++
  regTAY ++
  regTSX ++
  regTXA ++
  regTXS ++
  regTYA

/-- The sparse `instructions` array built by `makeInstructions`
(emulator.js lines 270-471): opcode to table entry.  No opcode is
registered twice, so first match equals last registration. -/
def instructions (opcode : Nat) : Option Entry :=
  (registrations.find? (fun p => p.1 == opcode)).map (fun p => p.2)

/-- The closure stored by `registerInstruction` (emulator.js lines
273-280): with an addressing mode, resolve the address, run the semantic
operation, then advance the program counter by the mode's byte count; with
no mode, the table entry is the semantic operation itself. -/
def runEntry (e : Entry) (s : State) : State :=
  match e with
  | .addressed t mode =>
      let address := getAddress mode s
      let s1 := runType2 t s address
      { s1 with programCounter := s1.programCounter + (bytes mode : Int) }
  | .plain t => runType0 t s

/-- The kinds of runtime fault `tick` can surface.  The spec demands a
typed `illegalOpcode` fault; the source never constructs one — calling the
`undefined` slot of a sparse array raises a JS `TypeError` ("is not a
function"), modelled as `typeErrorNotAFunction`. -/
inductive Fault where
  | illegalOpcode
  | typeErrorNotAFunction
deriving DecidableEq, Repr

/-- `tick` (emulator.js lines 486-493): read the opcode byte at the
program counter, look up the table entry, increment the program counter,
then invoke the entry.  An unpopulated slot is `undefined`, so the call
`instruction(state)` throws after the increment — the state mutated so far
(the incremented program counter) survives the throw. -/
def tick (s : State) : State × Option Fault :=
  match instructions (memRead s.memory s.programCounter) with
  | none =>
      ({ s with programCounter := s.programCounter + 1 },
        some Fault.typeErrorNotAFunction)
  | some e =>
      (runEntry e { s with programCounter := s.programCounter + 1 }, none)

/-- `load` (emulator.js lines 482-484): copy the ROM bytes into memory
starting at `START_PROGRAM` (each byte stored through the `Uint8Array`,
hence through `memWrite`). -/
def loadBytes (m : Mem) (i : Nat) (rom : List Nat) : Mem :=
  match rom with
  | [] => m
  | v :: rest => loadBytes (memWrite m (Int.ofNat i) (Int.ofNat v)) (i + 1) rest

/-- `load` applied to a CPU state. -/
def load (rom : List Nat) (s : State) : State :=
  { s with memory := loadBytes s.memory 0x200 rom }

/-- `run` (emulator.js lines 495-499): tick while the byte at the program
counter differs from the stop opcode.  The source loop is unbounded; the
`fuel` argument bounds the number of iterations modelled, and exhausting it
returns the state reached so far with no fault. -/
def run (fuel : Nat) (stopOpcode : Int) (s : State) : State × Option Fault :=
  match fuel with
  | 0 => (s, none)
  | Nat.succ fuel =>
      if Int.ofNat (memRead s.memory s.programCounter) = stopOpcode then
        (s, none)
      else
        match tick s with
        | (s1, some f) => (s1, some f)
        | (s1, none) => run fuel stopOpcode s1

end Emulator

namespace Assembler

/-- The addressing-mode names used as keys of the assembler's per-mnemonic
variant objects and of the `matchers` object (assembler.js lines 4-185).
`relative` appears as a variant key (the branch mnemonics) but has no
entry in `matchers`; probing it would throw a JS TypeError. -/
inductive ModeName where
  | accumulator | implied | immediate
  | zeroPage | zeroPageX | zeroPageY
  | absolute | absoluteX | absoluteY
  | indirect | indexedIndirect | indirectIndexed
  | relative
deriving DecidableEq, Repr

/-- A hex digit as accepted by the uppercase-only character class
`[\dA-F]` of most matcher regexes. -/
def isHexUpper (c : Char) : Bool := c.isDigit || ('A' ≤ c && c ≤ 'F')

/-- A hex digit as accepted by the case-insensitive class `[\dA-Fa-f]`
used by the `immediate`, `zeroPage` and `zeroPageX` matchers. -/
def isHexAny (c : Char) : Bool := isHexUpper c || ('a' ≤ c && c ≤ 'f')

/-- `matchers[name].test` (assembler.js lines 136-185): each regex is
anchored (`^...$`) over a fixed shape, so it is transcribed as a pattern
match on the operand's character list.  `implied` tests
`string === undefined`; `accumulator` tests `string === 'A'`.  For the
regex matchers an `undefined` operand is coerced by JS to the string
`"undefined"`, which none of the patterns accept, hence `false` on
`none`. -/
def testOperand (mode : ModeName) (operand : Option (List Char)) : Bool :=
  match mode, operand with
  | .accumulator, o => o == some ['A']
  | .implied, o => o.isNone
  | .immediate, some ['#', '$', a, b] => isHexAny a && isHexAny b
  | .zeroPage, some ['$', a, b] => isHexAny a && isHexAny b
  | .zeroPageX, some ['$', a, b, ',', 'X'] => isHexAny a && isHexAny b
  | .zeroPageY, some ['$', a, b, ',', 'Y'] => isHexUpper a && isHexUpper b
  | .absolute, some ['$', a, b, c, d] =>
      isHexUpper a && isHexUpper b && isHexUpper c && isHexUpper d
  | .absoluteX, some ['$', a, b, c, d, ',', 'X'] =>
      isHexUpper a && isHexUpper b && isHexUpper c && isHexUpper d
  | .absoluteY, some ['$', a, b, c, d, ',', 'Y'] =>
      isHexUpper a && isHexUpper b && isHexUpper c && isHexUpper d
  | .indirect, some ['(', '$', a, b, c, d, ')'] =>
      isHexUpper a && isHexUpper b && isHexUpper c && isHexUpper d
  | .indexedIndirect, some ['(', '$', a, b, ',', 'X', ')'] =>
      isHexUpper a && isHexUpper b
  | .indirectIndexed, some ['(', '$', a, b, ')', ',', 'Y'] =>
      isHexUpper a && isHexUpper b
  | _, _ => false

/-- The numeric value of one hex digit, as `parseInt(-, 16)` reads it. -/
def hexDigitVal (c : Char) : Nat :=
  if c.isDigit then c.toNat - 48
  else if 'A' ≤ c && c ≤ 'F' then c.toNat - 55
  else if 'a' ≤ c && c ≤ 'f' then c.toNat - 87
  else 0

/-- `parseInt(s, 16)` on the pure-hex substrings the matchers produce. -/
def parseHex (cs : List Char) : Nat :=
  cs.foldl (fun acc c => acc * 16 + hexDigitVal c) 0

/-- `parseByte(left, right)` (assembler.js lines 121-126):
`string.substring(left + 1, length - right)` parsed as hex, one byte. -/
def parseByteChars (left right : Nat) (s : List Char) : List Nat :=
  [parseHex ((s.drop (left + 1)).take (s.length - right - (left + 1)))]

/-- `parseWord(left, right)` (assembler.js lines 128-134): the 4-hex-digit
field split little-endian; `value & 0xFF` and `value >> 8` on the
nonnegative value below 2^16 are mod and division by 256. -/
def parseWordChars (left right : Nat) (s : List Char) : List Nat :=
  let value := parseHex ((s.drop (left + 1)).take (s.length - right - (left + 1)))
  [value % 256, value / 256]

/-- `matchers[name].extract` (assembler.js lines 136-185), with the
`parseByte`/`parseWord` offsets of the source. -/
def extractOperand (mode : ModeName) (operand : List Char) : List Nat :=
  match mode with
  | .accumulator => []
  | .implied => []
  | .immediate => parseByteChars 1 0 operand
  | .zeroPage => parseByteChars 0 0 operand
  | .zeroPageX => parseByteChars 0 2 operand
  | .zeroPageY => parseByteChars 0 2 operand
  | .absolute => parseWordChars 0 0 operand
  | .absoluteX => parseWordChars 0 2 operand
  | .absoluteY => parseWordChars 0 2 operand
  | .indirect => parseWordChars 1 1 operand
  | .indexedIndirect => parseByteChars 1 3 operand
  | .indirectIndexed => parseByteChars 1 3 operand
  | .relative => []

/-- Mnemonic table entries (assembler.js lines 4-119), part 1. -/
def instructionsPart1 : List (String × List (ModeName × Nat)) :=
  [("ADC", [(.immediate, 0x69), (.zeroPage, 0x65), (.zeroPageX, 0x75), (.absolute, 0x6D), (.absoluteX, 0x7D), (.absoluteY, 0x79), (.indexedIndirect, 0x61), (.indirectIndexed, 0x71)]),
    ("AND", [(.immediate, 0x29), (.zeroPage, 0x25), (.zeroPageX, 0x35), (.absolute, 0x2D), (.absoluteX, 0x3D), (.absoluteY, 0x39), (.indexedIndirect, 0x21), (.indirectIndexed, 0x31)]),
    ("ASL", [(.accumulator, 0x0A), (.zeroPage, 0x06), (.zeroPageX, 0x16), (.absolute, 0x0E), (.absoluteX, 0x1E)]),
    ("BCC", [(.relative, 0x90)]),
    ("BCS", [(.relative, 0xB0)]),
    ("BEQ", [(.relative, 0xF0)]),
    ("BIT", [(.zeroPage, 0x24), (.absolute, 0x2C)]),
    ("BMI", [(.relative, 0x30)]),
    ("BNE", [(.relative, 0xD0)]),
    ("BPL", [(.relative, 0x10)]),
    ("BRK", []),
    ("BVC", []),
    ("BVS", []),
    ("CLC", []),
    ("CLD", []),
    ("CLI", []) ]

/-- Mnemonic table entries (assembler.js lines 4-119), part 2. -/
def instructionsPart2 : List (String × List (ModeName × Nat)) :=
  [("CLV", []),
    ("CMP", []),
    ("CPX", []),
    ("CPY", []),
    ("DEC", [(.zeroPage, 0xC6), (.zeroPageX, 0xD6), (.absolute, 0xCE), (.absoluteX, 0xDE)]),
    ("DEX", [(.implied, 0xCA)]),
    ("DEY", [(.implied, 0x88)]),
    ("EOR", []),
    ("INC", [(.zeroPage, 0xE6), (.zeroPageX, 0xF6), (.absolute, 0xEE), (.absoluteX, 0xFE)]),
    ("INX", [(.implied, 0xE8)]),
    ("INY", [(.implied, 0xC8)]),
    ("JMP", []),
    ("JSR", []),
    ("LDA", [(.immediate, 0xA9), (.zeroPage, 0xA5), (.zeroPageX, 0xB5), (.absolute, 0xAD), (.absoluteX, 0xBD), (.absoluteY, 0xB9), (.indexedIndirect, 0xA1), (.indirectIndexed, 0xB1)]),
    ("LDX", [(.immediate, 0xA2), (.zeroPage, 0xA6), (.zeroPageX, 0xB6), (.absolute, 0xAE), (.absoluteX, 0xBE)]),
    ("LDY", [(.immediate, 0xA0), (.zeroPage, 0xA4), (.zeroPageX, 0xB4), (.absolute, 0xAC), (.absoluteX, 0xBC)]) ]

/-- Mnemonic table entries (assembler.js lines 4-119), part 3. -/
def instructionsPart3 : List (String × List (ModeName × Nat)) :=
  [("LSR", []),
    ("NOP", []),
    ("ORA", []),
    ("PHA", []),
    ("PHP", []),
    ("PLA", []),
    ("PLP", []),
    ("ROL", []),
    ("ROR", []),
    ("RTI", []),
    ("RTS", []),
    ("SBC", []),
    ("SEC", []),
    ("SED", []),
    ("SEI", []),
    ("STA", []) ]

/-- Mnemonic table entries (assembler.js lines 4-119), part 4. -/
def instructionsPart4 : List (String × List (ModeName × Nat)) :=
  [("STX", []),
    ("STY", []),
    ("TAX", []),
    ("TAY", []),
    ("TSX", []),
    ("TXA", []),
    ("TXS", []),
    ("TYA", []) ]

/-- The assembler's `instructions` object (assembler.js lines 4-119):
mnemonic to its addressing-mode/opcode variants, in declaration order
(JS object key order, which `Object.keys` preserves and the matcher probe
relies on). -/
def instructions : List (String × List (ModeName × Nat)) :=
  instructionsPart1 ++ instructionsPart2 ++ instructionsPart3 ++ instructionsPart4

/-- `\\w` of the line regex `/(\\w+)(?:\\s+([\\dA-F#$(),XY]+))?/`
(assembler.js line 191). -/
def isWordChar (c : Char) : Bool := c.isAlphanum || c == '_'

/-- The operand character class `[\\dA-F#$(),XY]` of the line regex
(assembler.js line 191): digits, uppercase `A`-`F`, and the literal
punctuation — note no lowercase letters. -/
def isOperandChar (c : Char) : Bool :=
  c.isDigit || ('A' ≤ c && c ≤ 'F') ||
    c == '#' || c == '$' || c == '(' || c == ')' || c == ',' ||
    c == 'X' || c == 'Y'

/-- `line.match(/(\\w+)(?:\\s+([\\dA-F#$(),XY]+))?/)` (assembler.js
line 191).  The regex finds the leftmost maximal `\\w` run (the mnemonic);
the optional group then captures one-or-more operand-class characters
after one-or-more whitespace characters, or fails to participate, in which
case the operand capture is `undefined`.  Returns `none` when the line has
no word character at all (JS `match` returns `null` and destructuring
throws). -/
def lineMatch (line : List Char) : Option (List Char × Option (List Char)) :=
  match line.dropWhile (fun c => !isWordChar c) with
  | [] => none
  | rest =>
      let mnemonic := rest.takeWhile isWordChar
      let afterMnemonic := rest.dropWhile isWordChar
      let ws := afterMnemonic.takeWhile (fun c => c.isWhitespace)
      let afterWs := afterMnemonic.dropWhile (fun c => c.isWhitespace)
      let operand := afterWs.takeWhile isOperandChar
      some (mnemonic, if ws ≠ [] ∧ operand ≠ [] then some operand else none)

/-- The error outcomes of `assemble` (assembler.js lines 187-208):
`parseFailed` is the thrown `Error` carrying the offending source line
(line 203); `typeError` is the JS TypeError raised when the line regex
matches nothing or the mnemonic is absent from the table, or when a
branch mnemonic probes the missing `matchers.relative`. -/
inductive AsmError where
  | parseFailed (line : String)
  | typeError
deriving DecidableEq, Repr

/-- `Object.keys(variants).find((name) => matchers[name].test(operand))`
(assembler.js lines 194-196): probe the variants in declaration order;
probing `relative` dereferences the missing `matchers.relative` and
throws. -/
def findVariant (variants : List (ModeName × Nat)) (operand : Option (List Char)) :
    Except AsmError (Option (ModeName × Nat)) :=
  match variants with
  | [] => .ok none
  | (mode, opcode) :: rest =>
      if mode = .relative then .error .typeError
      else if testOperand mode operand then .ok (some (mode, opcode))
      else findVariant rest operand

/-- One iteration of the `lines.map` body of `assemble` (assembler.js
lines 190-205): tokenize the line, look up the mnemonic's variants, probe
the matchers in order, and emit the opcode byte followed by the extracted
operand bytes; a line no matcher accepts throws the parse error carrying
the line. -/
def assembleLine (line : List Char) : Except AsmError (List Nat) :=
  match lineMatch line with
  | none => .error .typeError
  | some (mnemonic, operand) =>
      match instructions.find? (fun p => p.1 == String.mk mnemonic) with
      | none => .error .typeError
      | some (_, variants) =>
          match findVariant variants operand with
          | .error e => .error e
          | .ok none => .error (.parseFailed (String.mk line))
          | .ok (some (mode, opcode)) =>
              .ok (opcode :: extractOperand mode (operand.getD []))

/-- `string.split('\n')` (assembler.js line 188) on the character list. -/
def splitLines (cs : List Char) : List (List Char) :=
  match cs with
  | [] => [[]]
  | c :: rest =>
      let r := splitLines rest
      if c = '\n' then [] :: r
      else (c :: r.headI) :: r.tail

/-- `assemble` (assembler.js lines 187-208): split into lines, encode each
line, and concatenate the per-line byte lists in source order.  A line
that fails aborts the whole pass with its error, as the JS exception
does. -/
def assemble (source : String) : Except AsmError (List Nat) :=
  (splitLines source.data).foldr
    (fun line acc =>
      match assembleLine line, acc with
      | .error e, _ => .error e
      | .ok _, .error e => .error e
      | .ok bs, .ok rest => .ok (bs ++ rest))
    (.ok [])

end Assembler


deriving instance DecidableEq for Except

open Emulator Assembler

/-- The mnemonic string named by a two-argument `instructionTypes` member
(the identifiers of emulator.js lines 104-256). -/
def mnemonicOfT2 (t : IType2) : String :=
  match t with
  | .ADC => "ADC" | .AND => "AND" | .ASL => "ASL" | .DEC => "DEC"
  | .EOR => "EOR" | .INC => "INC" | .LDA => "LDA" | .LDX => "LDX"
  | .LDY => "LDY" | .LSR => "LSR" | .ORA => "ORA" | .ROL => "ROL"
  | .ROR => "ROR" | .SBC => "SBC" | .STA => "STA" | .STX => "STX"
  | .STY => "STY"

/-- The (mnemonic, addressing-mode-name) pair named by a one-argument
`instructionTypes` member: the `_A` variants are the assembler's
`accumulator` rows, the rest its `implied` rows. -/
def pairOfT0 (t : IType0) : String × ModeName :=
  match t with
  | .ASL_A => ("ASL", .accumulator) | .LSR_A => ("LSR", .accumulator)
  | .ROL_A => ("ROL", .accumulator) | .ROR_A => ("ROR", .accumulator)
  | .DEX => ("DEX", .implied) | .DEY => ("DEY", .implied)
  | .INX => ("INX", .implied) | .INY => ("INY", .implied)
  | .PHA => ("PHA", .implied) | .PHP => ("PHP", .implied)
  | .PLA => ("PLA", .implied) | .PLP => ("PLP", .implied)
  | .TAX => ("TAX", .implied) | .TAY => ("TAY", .implied)
  | .TSX => ("TSX", .implied) | .TXA => ("TXA", .implied)
  | .TXS => ("TXS", .implied) | .TYA => ("TYA", .implied)

/-- The emulator's addressing-mode keys carried over to the assembler's
mode-name vocabulary (the two objects use identical key spellings). -/
def modeNameOf (m : AddrMode) : ModeName :=
  match m with
  | .absolute => .absolute | .absoluteX => .absoluteX
  | .absoluteY => .absoluteY | .zeroPage => .zeroPage
  | .zeroPageX => .zeroPageX | .zeroPageY => .zeroPageY
  | .immediate => .immediate | .relative => .relative
  | .indirect => .indirect | .indexedIndirect => .indexedIndirect
  | .indirectIndexed => .indirectIndexed

/-- The (mnemonic, addressing-mode) pair the decoder table registers for an
opcode byte, read off the `instructions` array. -/
def decodedPair (opcode : Nat) : Option (String × ModeName) :=
  (Emulator.instructions opcode).map (fun e =>
    match e with
    | .addressed t m => (mnemonicOfT2 t, modeNameOf m)
    | .plain t => pairOfT0 t)

/-- The opcode byte the encoder's table assigns to a
(mnemonic, addressing-mode) pair, read off the assembler's `instructions`
object. -/
def lookupOpcode (mnemonic : String) (mode : ModeName) : Option Nat :=
  match Assembler.instructions.find? (fun p => p.1 == mnemonic) with
  | none => none
  | some (_, variants) => (variants.find? (fun p => p.1 == mode)).map (fun p => p.2)

/-- The spec's invariant: whenever a (mnemonic, addressing-mode) pair is
implemented on both tables — the encoder assigns it an opcode and the
decoder registers some opcode for it — the two opcode bytes agree. -/
def mutualInverse : Prop :=
  ∀ mnemonic mode opE opD,
    lookupOpcode mnemonic mode = some opE →
    decodedPair opD = some (mnemonic, mode) →
    opE = opD

/-- The CPU state of claim C2: register X preset to 1, memory byte 0x07
preset at 0x2346, then the ROM for `LDA $2345,X` loaded. -/
def c2Start : State :=
  load [0xBD, 0x45, 0x23]
    { makeState with X := 1, memory := memWrite makeState.memory 0x2346 0x07 }

/-- The memory of claim C3: a little-endian pointer 0x0010 at the program
counter, and the word 0x1234 stored little-endian at 0x0010/0x0011. -/
def c3Mem : Mem :=
  memWrite (memWrite (memWrite (memWrite makeState.memory 0x200 0x10) 0x201 0x00) 0x10 0x34) 0x11 0x12

/-- The CPU state of claim C3. -/
def c3State : State := { makeState with memory := c3Mem }

/-- The CPU state of claim C6: memory byte 255 preset at 0x10, then the
ROM for `INC $0010` (opcode 0xEE) loaded. -/
def c6Start : State :=
  load [0xEE, 0x10, 0x00] { makeState with memory := memWrite makeState.memory 0x10 255 }

/-- The CPU state of claim C8: ROM `PHA` (0x48) then `PLA` (0x68) loaded,
accumulator preset to 300 (reachable: `A` is never masked by arithmetic). -/
def c8Start : State := { load [0x48, 0x68] makeState with A := 300 }

/-- Every real cell of the Uint8Array holds a byte value. -/
def MemBytes (m : Mem) : Prop := ∀ i, i < 65536 → m i < 256

/-- The memory invariant of claim C9 on a CPU state. -/
def memInv (s : State) : Prop := MemBytes s.memory

/-- A store through the Uint8Array keeps every cell a byte: the written
value is reduced modulo 256 (negatives wrap into 0..255) and out-of-range
indices are ignored. -/
theorem memWrite_bytes {m : Mem} {i v : Int} (h : MemBytes m) :
    MemBytes (memWrite m i v) := by
  intro j hj
  by_cases hg : (0 ≤ i ∧ i < 65536)
  · simp only [memWrite, if_pos hg]
    by_cases hj2 : j = i.toNat
    · simp only [if_pos hj2]
      omega
    · simp only [if_neg hj2]
      exact h j hj
  · simp only [memWrite, if_neg hg]
    exact h j hj

/-- C1: the encoder/decoder opcode tables are NOT mutual inverses over
their shared implemented subset.  The encoder emits 0xBD for
(LDA, absoluteX), but the decoder registers 0xBD as (LDA, absoluteY) and
registers (LDA, absoluteX) at 0xB9 instead, so the opcode the encoder
produces for (LDA, absoluteX) is executed as (LDA, absoluteY). -/
theorem C1_lda_absolute_indexed_tables_disagree :
    lookupOpcode "LDA" .absoluteX = some 0xBD ∧
    decodedPair 0xBD = some ("LDA", ModeName.absoluteY) ∧
    decodedPair 0xB9 = some ("LDA", ModeName.absoluteX) ∧
    ¬ mutualInverse := by
  refine ⟨by decide, by decide, by decide, fun h => ?_⟩
  exact absurd (h "LDA" .absoluteX 0xBD 0xB9 (by decide) (by decide)) (by decide)

/-- C2: encoding `LDA $2345,X` yields [0xBD, 0x45, 0x23], but one step
from the preset state leaves A = 0, not 0x07: opcode 0xBD is dispatched
through `absoluteY` (with Y = 0 it resolves the unindexed word 0x2345),
so the preset byte at 0x2346 is never read. -/
theorem C2_lda_absoluteX_step_loads_zero :
    assemble "LDA $2345,X" = .ok [0xBD, 0x45, 0x23] ∧
    c2Start.X = 1 ∧
    memRead c2Start.memory 0x2346 = 0x07 ∧
    (tick c2Start).2 = none ∧
    (tick c2Start).1.A = 0 ∧
    ((0 : Int) = 0x07 → False) := by decide

/-- C3: the indirect mode dereferences a single byte, not a 16-bit word:
with the word at the program counter pointing at 0x0010 and the
little-endian word 0x1234 stored there, `getAddress` returns 0x34 (the
byte at 0x0010 alone), not the full word 0x1234 the claim requires. -/
theorem C3_indirect_dereferences_single_byte :
    getAddress .indirect c3State = 0x34 ∧
    memRead c3State.memory 0x10 ||| (memRead c3State.memory 0x11 <<< 8) = 0x1234 ∧
    ((0x34 : Int) = 0x1234 → False) := by decide

/-- C4: opcode 0x00 has no table entry, and `tick` on the fresh state
(whose first fetched opcode is 0x00) surfaces the undefined-callable
JS TypeError, not the typed illegal-opcode fault the spec demands. -/
theorem C4_illegal_opcode_raises_type_error :
    Emulator.instructions 0x00 = none ∧
    (tick makeState).2 = some Fault.typeErrorNotAFunction ∧
    (tick makeState).2 ≠ some Fault.illegalOpcode := by decide

/-- C5 counterexample: a tick that aborts (here: illegal opcode 0x00 on
the fresh state) does NOT leave the program counter as it was — `tick`
increments it before dispatching, so it ends one past the faulting
opcode. -/
theorem C5_counterexample_pc_advances :
    (tick makeState).2 = some Fault.typeErrorNotAFunction ∧
    makeState.programCounter = 0x200 ∧
    (tick makeState).1.programCounter = 0x201 ∧
    ((0x201 : Int) = (0x200 : Int) → False) := by decide

/-- C5 amended: when `tick` (directly or inside `run`) aborts with an
execution fault, every component of the CPU state except the program
counter is exactly as of the last successfully completed instruction, and
the program counter is left advanced one byte past the faulting opcode;
a faulting `run` result is the result of the faulting `tick` from the
state reached by the previously completed instructions. -/
theorem C5_abort_preserves_all_but_pc :
    (∀ s s1 f, tick s = (s1, some f) →
      s1.A = s.A ∧ s1.X = s.X ∧ s1.Y = s.Y ∧ s1.stackPointer = s.stackPointer ∧
      s1.statusRegister = s.statusRegister ∧ s1.memory = s.memory ∧
      s1.programCounter = s.programCounter + 1) ∧
    (∀ fuel stop s s1 f, run fuel stop s = (s1, some f) →
      ∃ s0, tick s0 = (s1, some f)) := by
  constructor
  · intro s s1 f h
    unfold tick at h
    split at h
    · rw [Prod.mk.injEq] at h
      rw [← h.1]
      exact ⟨rfl, rfl, rfl, rfl, rfl, rfl, rfl⟩
    · rw [Prod.mk.injEq] at h
      exact absurd h.2 (by simp)
  · intro fuel stop
    induction fuel with
    | zero =>
      intro s s1 f h
      rw [run, Prod.mk.injEq] at h
      exact absurd h.2 (by simp)
    | succ n ih =>
      intro s s1 f h
      rw [run] at h
      split at h
      · rw [Prod.mk.injEq] at h
        exact absurd h.2 (by simp)
      · rcases ht : tick s with ⟨sa, fa⟩
        rw [ht] at h
        cases fa with
        | some f2 =>
          rw [Prod.mk.injEq] at h
          exact ⟨s, by rw [ht, h.1, ← h.2]⟩
        | none => exact ih sa s1 f h

/-- C5 witness: both clauses instantiated on the fresh state, whose first
tick faults on opcode 0x00. -/
theorem C5_witness :
    (tick makeState).1.A = 0 ∧
    (tick makeState).1.programCounter = 0x201 ∧
    (∃ s0, tick s0 = ((run 1 0x60 makeState).1, some Fault.typeErrorNotAFunction)) := by
  have h0 : tick makeState =
      ({ makeState with programCounter := 0x201 }, some Fault.typeErrorNotAFunction) := rfl
  have h := C5_abort_preserves_all_but_pc.1 makeState _ _ h0
  have hr : run 1 0x60 makeState =
      ((run 1 0x60 makeState).1, some Fault.typeErrorNotAFunction) := rfl
  have h2 := C5_abort_preserves_all_but_pc.2 1 0x60 makeState _ _ hr
  refine ⟨?_, ?_, h2⟩
  · rw [show (tick makeState).1 = _ from congrArg Prod.fst h0]
    exact h.1.trans rfl
  · rw [show (tick makeState).1 = _ from congrArg Prod.fst h0]

/-- C6 counterexample: executing INC on a memory byte holding 255 leaves
0, not 256 — the Uint8Array masks the stored value to 8 bits. -/
theorem C6_counterexample_inc_wraps :
    memRead c6Start.memory 0x10 = 255 ∧
    (tick c6Start).2 = none ∧
    (tick c6Start).1.memory 0x10 = 0 ∧
    ((0 : Nat) = 256 → False) := by decide

/-- C6 amended: `INC`/`DEC` on a memory byte store through the Uint8Array
and therefore wrap modulo 256 (255 increments to 0), while the register
increments `INX`/`INY` really are unmasked. -/
theorem C6_memory_inc_dec_mask_registers_do_not (s : State) (i : Int)
    (h0 : 0 ≤ i) (h1 : i < 65536) :
    (runType2 .INC s i).memory i.toNat = (memRead s.memory i + 1) % 256 ∧
    (runType2 .DEC s i).memory i.toNat = (memRead s.memory i + 255) % 256 ∧
    (runType0 .INX s).X = s.X + 1 ∧
    (runType0 .INY s).Y = s.Y + 1 := by
  have hg : (0 ≤ i ∧ i < 65536) := ⟨h0, h1⟩
  refine ⟨?_, ?_, rfl, rfl⟩
  · simp only [runType2, memWrite, rd, if_pos hg, eq_self_iff_true, if_true, Int.ofNat_eq_natCast]
    omega
  · simp only [runType2, memWrite, rd, if_pos hg, eq_self_iff_true, if_true, Int.ofNat_eq_natCast]
    omega

/-- C6 witness: the amended statement evaluated at the fresh state and
address 5. -/
theorem C6_witness :
    (runType2 .INC makeState 5).memory 5 = 1 ∧
    (runType2 .DEC makeState 5).memory 5 = 255 := by
  have h := C6_memory_inc_dec_mask_registers_do_not makeState 5 (by decide) (by decide)
  exact ⟨h.1.trans (by decide), h.2.1.trans (by decide)⟩

/-- C7: `ADC #$23` encodes to exactly [0x69, 0x23]; one step on a fresh
state (A initially 0) with that ROM loaded leaves A = 0x23. -/
theorem C7_adc_immediate_roundtrip :
    assemble "ADC #$23" = .ok [0x69, 0x23] ∧
    makeState.A = 0 ∧
    (tick (load [0x69, 0x23] makeState)).2 = none ∧
    (tick (load [0x69, 0x23] makeState)).1.A = 0x23 := by decide

/-- C8 counterexample: with A = 300 the PHA/PLA round trip returns
A = 44 (= 300 mod 256): the push stores through the Uint8Array, so the
claim fails for CPU states whose accumulator exceeds a byte.  The stack
pointer is restored. -/
theorem C8_counterexample_pha_pla :
    c8Start.A = 300 ∧
    (tick (tick c8Start).1).1.A = 44 ∧
    (tick (tick c8Start).1).1.stackPointer = 0xFF ∧
    ((44 : Int) = 300 → False) := by decide

/-- C8 amended: for every CPU state whose accumulator holds a byte value
(0 <= A < 256) and whose stack pointer keeps the stack slot inside the
address space (-256 <= SP < 0xFF00), PHA then PLA restores both the
accumulator and the stack pointer. -/
theorem C8_pha_pla_restores_byte_accumulator (s : State)
    (hA0 : 0 ≤ s.A) (hA : s.A < 256)
    (hSP0 : -256 ≤ s.stackPointer) (hSP : s.stackPointer < 65280) :
    (runType0 .PLA (runType0 .PHA s)).A = s.A ∧
    (runType0 .PLA (runType0 .PHA s)).stackPointer = s.stackPointer := by
  have hg : (0 ≤ s.stackPointer + 0x0100 ∧ s.stackPointer + 0x0100 < 65536) := by omega
  constructor
  · show Int.ofNat (memRead (memWrite s.memory (s.stackPointer + 0x0100) s.A)
      (s.stackPointer - 1 + 1 + 0x0100)) = s.A
    have hidx : s.stackPointer - 1 + 1 + 0x0100 = s.stackPointer + 0x0100 := by ring
    rw [hidx]
    simp only [memRead, memWrite, if_pos hg, eq_self_iff_true, if_true, Int.ofNat_eq_natCast]
    omega
  · show s.stackPointer - 1 + 1 = s.stackPointer
    ring

/-- C8 witness: the amended round trip evaluated with A = 7 on the fresh
state. -/
theorem C8_witness :
    (runType0 .PLA (runType0 .PHA { makeState with A := 7 })).A = 7 ∧
    (runType0 .PLA (runType0 .PHA { makeState with A := 7 })).stackPointer = 0xFF := by
  have h := C8_pha_pla_restores_byte_accumulator { makeState with A := 7 }
    (by decide) (by decide) (by decide) (by decide)
  exact ⟨h.1, h.2⟩

/-- C9: the 65536-cell memory always holds byte values.  The fresh state
satisfies the invariant, and every registered operation (any semantic op
under any addressing mode, and the plain register/stack ops), every
`tick`, and every `run` preserves it, because each memory write — stores,
INC/DEC, shifts/rotates on memory, stack pushes — goes through the
Uint8Array's modulo-256 conversion, whatever (possibly negative or
oversized) register value is written. -/
theorem C9_every_write_masked :
    memInv makeState ∧
    (∀ e s, memInv s → memInv (runEntry e s)) ∧
    (∀ s, memInv s → memInv (tick s).1) ∧
    (∀ fuel stop s, memInv s → memInv (run fuel stop s).1) := by
  have hbase : memInv makeState := fun i _ => (by norm_num : (0:Nat) < 256)
  have hentry : ∀ e s, memInv s → memInv (runEntry e s) := by
    intro e s h
    cases e with
    | addressed t mode =>
      show MemBytes (runType2 t s (getAddress mode s)).memory
      cases t <;> first | exact h | exact memWrite_bytes h
    | plain t =>
      show MemBytes (runType0 t s).memory
      cases t <;>
        first
        | exact h
        | exact memWrite_bytes h
        | (intro j hj; simp only [runType0]; split <;> exact h j hj)
  have htick : ∀ s, memInv s → memInv (tick s).1 := by
    intro s h
    rcases hI : Emulator.instructions (memRead s.memory s.programCounter) with _ | e
    · show MemBytes (tick s).1.memory
      unfold tick
      rw [hI]
      exact h
    · unfold tick
      rw [hI]
      exact hentry e _ h
  refine ⟨hbase, hentry, htick, ?_⟩
  intro fuel stop
  induction fuel with
  | zero => intro s h; exact h
  | succ n ih =>
    intro s h
    rw [run]
    split
    · exact h
    · rcases ht : tick s with ⟨sa, fa⟩
      have hsa : memInv sa := by
        have := htick s h
        rw [ht] at this
        exact this
      cases fa with
      | some f2 => exact hsa
      | none => exact ih sa hsa

/-- C9 witness: the tick clause applied to the fresh state, whose
invariant is the base clause of the theorem itself. -/
theorem C9_witness : memInv (tick makeState).1 :=
  C9_every_write_masked.2.2.1 makeState C9_every_write_masked.1

/-- C10 counterexample: the encoder does not accept lowercase hex in an
immediate operand — `ADC #$2a` raises the encoding-match error — although
the uppercase spelling of the same line encodes successfully. -/
theorem C10_lowercase_immediate_rejected :
    assemble "ADC #$2a" = .error (.parseFailed "ADC #$2a") ∧
    assemble "ADC #$2A" = .ok [0x69, 0x2A] := by decide

/-- C10 amended: the matcher regexes for immediate/zeroPage/zeroPageX do
accept lowercase hex, but the line tokenizer's operand character class has
no lowercase letters, so lowercase digits never reach a matcher: operands
containing lowercase either fail to assemble (`LDA $2a`, `LDA $2a,X`) or
are silently truncated and mis-encoded as a shorter mode (`LDA $23ab`
encodes as zeroPage [0xA5, 0x23] instead of raising the error), while the
uppercase spellings encode as intended. -/
theorem C10_lowercase_never_reaches_matchers :
    testOperand .immediate (some ['#', '$', '2', 'a']) = true ∧
    testOperand .zeroPage (some ['$', '2', 'a']) = true ∧
    testOperand .zeroPageX (some ['$', '2', 'a', ',', 'X']) = true ∧
    testOperand .absolute (some ['$', '2', '3', 'a', 'b']) = false ∧
    isOperandChar 'a' = false ∧
    assemble "LDA $2a" = .error (.parseFailed "LDA $2a") ∧
    assemble "LDA $2a,X" = .error (.parseFailed "LDA $2a,X") ∧
    assemble "LDA $23ab" = .ok [0xA5, 0x23] ∧
    assemble "LDA $23AB" = .ok [0xAD, 0xAB, 0x23] := by decide
